import Mathlib

/-!
Verification of the OpenTESArena software renderer core.

A shallow embedding in Lean 4 of the parts of
`src/OpenTESArena/src/Rendering/SoftwareRenderer.cpp` and
`src/OpenTESArena/src/Media/TextureManager.cpp` needed to settle the
specification claims: the per-column occlusion tracker, the 2D DDA loop,
the diagonal-wall / door / chasm intersection solvers, point-light
contribution, visible-flat culling, texture decoding, and the texture
manager ID cache.

`double` arithmetic is modelled with `ℚ` (with IEEE infinities modelled
by an explicit `QInf` type where the code relies on them, and `std::sqrt`
abstracted as a function parameter where a Euclidean length is computed);
machine integers are modelled with `ℤ`/`ℕ` (the quantities involved are
small screen/grid coordinates, far from any overflow).
-/

namespace SoftwareRenderer

/-- Modelled from the spec: `Constants::Epsilon` (its header is not under
`src/`), the repository-wide epsilon value `1.0e-5`. -/
def epsilonC : ℚ := 1 / 100000

/-- Modelled from the spec: `Constants::JustBelowOne` (header not under
`src/`), which is `1.0 - Epsilon`, the largest texture coordinate strictly
below one. -/
def justBelowOne : ℚ := 1 - epsilonC

/-- Embedding of `std::clamp(value, lo, hi)` on doubles, translated to `ℚ`. -/
def clampQ (value lo hi : ℚ) : ℚ :=
  if value < lo then lo else if hi < value then hi else value

theorem clampQ_nonneg (value hi : ℚ) (hhi : 0 ≤ hi) : 0 ≤ clampQ value 0 hi := by
  unfold clampQ; split_ifs <;> linarith

theorem clampQ_le (value lo hi : ℚ) (hlo : lo ≤ hi) : clampQ value lo hi ≤ hi := by
  unfold clampQ; split_ifs <;> linarith

/-- The four axis-aligned voxel facings (`VoxelFacing` in `VoxelFacing.h`,
used throughout `SoftwareRenderer.cpp`). -/
inductive VoxelFacing where
  | positiveX
  | negativeX
  | positiveZ
  | negativeZ
  deriving DecidableEq

/-- Embedding of `NewDouble2` / `Double2`: a 2D vector of doubles. In the
renderer the `y` component stores a Z (west-east) world coordinate. -/
structure Double2 where
  x : ℚ
  y : ℚ
  deriving DecidableEq

/-- Embedding of `Double3`: a 3D vector of doubles (used for normals and positions). -/
structure Double3 where
  x : ℚ
  y : ℚ
  z : ℚ
  deriving DecidableEq

def Double2.sub (a b : Double2) : Double2 := ⟨a.x - b.x, a.y - b.y⟩

def Double2.add (a b : Double2) : Double2 := ⟨a.x + b.x, a.y + b.y⟩

def Double2.scale (a : Double2) (s : ℚ) : Double2 := ⟨a.x * s, a.y * s⟩

def Double2.dot (a b : Double2) : ℚ := a.x * b.x + a.y * b.y

/-- Modelled from the spec: `Vector2::lengthSquared` (Vector2.h is not under `src/`), the squared Euclidean norm. -/
def Double2.lengthSquared (a : Double2) : ℚ := a.x * a.x + a.y * a.y

/-- Modelled from the spec: `Vector2::length` (Vector2.h is not under
`src/`), with `std::sqrt` abstracted as the parameter `sq` (there is no
square root on `ℚ`; every theorem below is insensitive to the value `sq`
returns, or assumes only `sq 0 = 0`). -/
def Double2.length (sq : ℚ → ℚ) (a : Double2) : ℚ := sq a.lengthSquared

/- ### OcclusionData (SoftwareRenderer.cpp lines 519-569)

Per-column occlusion window `[yMin, yMax)`; initialized to `(0, height)`
for every column at the start of a frame. -/

structure OcclusionData where
  yMin : ℤ
  yMax : ℤ
  deriving DecidableEq

/-- Embedding of `OcclusionData::clipRange(int *yStart, int *yEnd)`: shrink
the candidate span to the visible window, collapsing it to empty when fully
occluded. Returns the new `(yStart, yEnd)` pair (the C++ writes through
pointers). -/
def OcclusionData.clipRange (o : OcclusionData) (yStart yEnd : ℤ) : ℤ × ℤ :=
  let occluded := (yEnd ≤ o.yMin) ∨ (yStart ≥ o.yMax)
  if occluded then
    -- The drawing range is completely hidden.
    (yEnd, yEnd)
  else
    -- Clip the drawing range.
    (max yStart o.yMin, min yEnd o.yMax)

/-- Embedding of `OcclusionData::update(int yStart, int yEnd)`: after an
opaque draw, grow the occluded boundary if the drawn span touches it. -/
def OcclusionData.update (o : OcclusionData) (yStart yEnd : ℤ) : OcclusionData :=
  let canIncreaseMin := yStart ≤ o.yMin
  let canDecreaseMax := yEnd ≥ o.yMax
  if canIncreaseMin ∧ canDecreaseMax then
    -- The drawing range touches the top and bottom occlusion values, so the
    -- entire column is occluded.
    { o with yMin := o.yMax }
  else if canIncreaseMin then
    -- Move the top of the window downward.
    { o with yMin := max yEnd o.yMin }
  else if canDecreaseMax then
    -- Move the bottom of the window upward.
    { o with yMax := min yStart o.yMax }
  else
    o

/-- One renderer call against the per-column `OcclusionData` within a frame:
either a `clipRange` query (which never mutates the window) or an opaque
`update`. -/
inductive OcclusionOp where
  | clip (yStart yEnd : ℤ)
  | upd (yStart yEnd : ℤ)

/-- Effect of one call on the occlusion window (`clipRange` is `const` in
the C++ and leaves the window unchanged). -/
def occlApply (o : OcclusionData) : OcclusionOp → OcclusionData
  | .clip _ _ => o
  | .upd yStart yEnd => o.update yStart yEnd

/-- The occlusion window after a sequence of `clipRange`/`update` calls. -/
def occlRun (o : OcclusionData) (ops : List OcclusionOp) : OcclusionData :=
  ops.foldl occlApply o

theorem update_shrinks (o : OcclusionData) (yStart yEnd : ℤ)
    (hwf : o.yMin ≤ o.yMax) :
    o.yMin ≤ (o.update yStart yEnd).yMin ∧
    (o.update yStart yEnd).yMax ≤ o.yMax ∧
    (o.update yStart yEnd).yMin ≤ (o.update yStart yEnd).yMax := by
  unfold OcclusionData.update
  dsimp only
  split_ifs with h1 h2 h3 <;> refine ⟨?_, ?_, ?_⟩ <;> dsimp only <;> omega

theorem occlRun_shrinks (ops : List OcclusionOp) (o : OcclusionData)
    (hwf : o.yMin ≤ o.yMax) :
    o.yMin ≤ (occlRun o ops).yMin ∧
    (occlRun o ops).yMax ≤ o.yMax ∧
    (occlRun o ops).yMin ≤ (occlRun o ops).yMax := by
  induction ops generalizing o with
  | nil => exact ⟨le_refl _, le_refl _, hwf⟩
  | cons op rest ih =>
    cases op with
    | clip a b => exact ih o hwf
    | upd a b =>
      have h := update_shrinks o a b hwf
      have h2 := ih (o.update a b) h.2.2
      exact ⟨le_trans h.1 h2.1, le_trans h2.2.1 h.2.1, h2.2.2⟩

/-- Claim C1: For every voxel column, the `OcclusionData` window `[yMin, yMax)`
is non-increasing over any sequence of `clipRange`/`update` calls within one
frame (`update` never decreases `yMin` and never increases `yMax`, and
`clipRange` does not mutate the window), and `clipRange` never returns a
span wider than its input: every `y` in the output span `[yStart, yEnd)`
lies in the input span. -/
theorem occlusion_window_shrinks_and_clipRange_subset
    (o : OcclusionData) (ops : List OcclusionOp) (hwf : o.yMin ≤ o.yMax) :
    (o.yMin ≤ (occlRun o ops).yMin ∧
     (occlRun o ops).yMax ≤ o.yMax ∧
     (occlRun o ops).yMin ≤ (occlRun o ops).yMax) ∧
    (∀ yStart yEnd y : ℤ,
      (o.clipRange yStart yEnd).1 ≤ y → y < (o.clipRange yStart yEnd).2 →
      yStart ≤ y ∧ y < yEnd) := by
  refine ⟨occlRun_shrinks ops o hwf, ?_⟩
  intro yStart yEnd y h1 h2
  unfold OcclusionData.clipRange at h1 h2
  by_cases hocc : (yEnd ≤ o.yMin) ∨ (yStart ≥ o.yMax)
  · simp only [hocc, if_pos, if_true] at h1 h2
    omega
  · simp only [hocc, if_neg, if_false] at h1 h2
    omega

/-- Witness for C1 at a concrete window and call sequence. -/
theorem occlusion_window_shrinks_and_clipRange_subset_witness :
    ((0 : ℤ) ≤ 10) ∧
    ((0 : ℤ) ≤ (occlRun ⟨0, 10⟩ [.clip 1 4, .upd 0 3]).yMin ∧
     (occlRun ⟨0, 10⟩ [.clip 1 4, .upd 0 3]).yMax ≤ 10 ∧
     (occlRun ⟨0, 10⟩ [.clip 1 4, .upd 0 3]).yMin ≤
       (occlRun ⟨0, 10⟩ [.clip 1 4, .upd 0 3]).yMax) ∧
    ((2 : ℤ) ≤ 3 ∧ (3 : ℤ) < 7) := by
  refine ⟨by decide, (occlusion_window_shrinks_and_clipRange_subset ⟨0, 10⟩
    [.clip 1 4, .upd 0 3] (by decide)).1, ?_⟩
  exact (occlusion_window_shrinks_and_clipRange_subset ⟨0, 10⟩
    [.clip 1 4, .upd 0 3] (by decide)).2 2 7 3 (by decide) (by decide)

/- ### Chasm far-facing solver (SoftwareRenderer.cpp lines 2161-2358)

`getChasmFarFacing` decides which of the four cell faces a ray exits
through by comparing the XZ angle of the ray against the four corner-to-eye
angles, with 12 case branches keyed by the near facing and the position of the eye voxel
 relative to the cell. The angles (`MathUtils::fullAtan2` of the
ray direction and of the normalized corner-to-eye vectors) involve
transcendental functions, so they enter the embedding as parameters; every
theorem below holds for all values of these parameters. -/

def getChasmFarFacing (eyeVoxelX eyeVoxelZ voxelX voxelZ : ℤ)
    (angle upLeftAngle upRightAngle downLeftAngle downRightAngle : ℚ)
    (nearFacing : VoxelFacing) : VoxelFacing :=
  if nearFacing = VoxelFacing.positiveX then
    -- Starts somewhere on (1.0, z).
    if eyeVoxelZ > voxelZ then
      -- Ignore bottom-left corner.
      if angle < upRightAngle then VoxelFacing.negativeZ
      else VoxelFacing.negativeX
    else if eyeVoxelZ < voxelZ then
      -- Ignore bottom-right corner.
      if angle < upLeftAngle then VoxelFacing.negativeX
      else VoxelFacing.positiveZ
    else
      if (angle > upLeftAngle) ∧ (angle < downLeftAngle) then VoxelFacing.positiveZ
      else if (angle > upRightAngle) ∧ (angle < upLeftAngle) then VoxelFacing.negativeX
      else VoxelFacing.negativeZ
  else if nearFacing = VoxelFacing.negativeX then
    -- Starts somewhere on (0.0, z).
    if eyeVoxelZ > voxelZ then
      -- Ignore top-left corner.
      if (angle < downRightAngle) ∧ (angle > downLeftAngle) then VoxelFacing.positiveX
      else VoxelFacing.negativeZ
    else if eyeVoxelZ < voxelZ then
      -- Ignore top-right corner.
      if angle < downLeftAngle then VoxelFacing.positiveZ
      else VoxelFacing.positiveX
    else
      if (angle < downLeftAngle) ∧ (angle > upLeftAngle) then VoxelFacing.positiveZ
      else if (angle < downRightAngle) ∧ (angle > downLeftAngle) then VoxelFacing.positiveX
      else VoxelFacing.negativeZ
  else if nearFacing = VoxelFacing.positiveZ then
    -- Starts somewhere on (x, 1.0).
    if eyeVoxelX > voxelX then
      -- Ignore bottom-left corner.
      if (angle > upRightAngle) ∧ (angle < upLeftAngle) then VoxelFacing.negativeX
      else VoxelFacing.negativeZ
    else if eyeVoxelX < voxelX then
      -- Ignore top-left corner.
      if (angle < downRightAngle) ∧ (angle > downLeftAngle) then VoxelFacing.positiveX
      else VoxelFacing.negativeZ
    else
      if (angle < downRightAngle) ∧ (angle > downLeftAngle) then VoxelFacing.positiveX
      else if (angle < upLeftAngle) ∧ (angle > upRightAngle) then VoxelFacing.negativeX
      else VoxelFacing.negativeZ
  else
    -- Starts somewhere on (x, 0.0).
    if eyeVoxelX > voxelX then
      -- Ignore bottom-right corner.
      if angle < upLeftAngle then VoxelFacing.negativeX
      else VoxelFacing.positiveZ
    else if eyeVoxelX < voxelX then
      -- Ignore top-right corner.
      if angle > downLeftAngle then VoxelFacing.positiveX
      else VoxelFacing.positiveZ
    else
      if angle < upLeftAngle then VoxelFacing.negativeX
      else if angle < downLeftAngle then VoxelFacing.positiveZ
      else VoxelFacing.positiveX

/-- Claim C5: For every `(voxelX, voxelZ, nearFacing)` and every camera/ray
input (any eye voxel and any values of the ray and corner angles), the
facing returned by `getChasmFarFacing` is never equal to the `nearFacing`
argument, across all 12 case branches. -/
theorem getChasmFarFacing_ne_nearFacing
    (eyeVoxelX eyeVoxelZ voxelX voxelZ : ℤ)
    (angle upLeftAngle upRightAngle downLeftAngle downRightAngle : ℚ)
    (nearFacing : VoxelFacing) :
    getChasmFarFacing eyeVoxelX eyeVoxelZ voxelX voxelZ
      angle upLeftAngle upRightAngle downLeftAngle downRightAngle
      nearFacing ≠ nearFacing := by
  cases nearFacing <;>
    simp only [getChasmFarFacing, reduceCtorEq, if_true, if_false] <;>
    split_ifs <;> simp

/- ### 2D DDA loop (`rayCast2DInternal`, SoftwareRenderer.cpp lines 7465-7634)

The loop state steps one voxel per iteration along X or Z (whichever delta
distance sum is smaller) and runs while the voxel is in bounds, the Z
distance is below the fog distance, and the occlusion window of the column is
non-empty. The code relies on IEEE infinities (`1.0 / 0.0 == inf`) when a
ray direction component is zero; `QInf` models a double that is either a
finite rational or `+inf` (with the sign dispatch done by `rayCast2D`, a
zero direction component always pairs with a `+1.0` numerator, so only
`+inf` arises). -/

/-- A non-NaN double value that is either finite or positive infinity. -/
inductive QInf where
  | fin (q : ℚ)
  | inf
  deriving DecidableEq

/-- IEEE `<` restricted to finite values and `+inf`. -/
def QInf.lt : QInf → QInf → Bool
  | .fin a, .fin b => a < b
  | .fin _, .inf => true
  | .inf, _ => false

/-- IEEE `+` restricted to finite values and `+inf`. -/
def QInf.add : QInf → QInf → QInf
  | .fin a, .fin b => .fin (a + b)
  | _, _ => .inf

/-- Division producing `+inf` on a zero divisor (the IEEE quotient is
infinite there; its sign is immaterial to the claims proved below). -/
def qdivInf (a b : ℚ) : QInf :=
  if b = 0 then .inf else .fin (a / b)

/-- The per-ray constants of `rayCast2DInternal`: the template booleans
(`NonNegativeDirX`/`NonNegativeDirZ`), ray direction, eye position, the
per-axis delta distances, the grid bounds, and the fog distance. -/
structure DDAParams where
  nonNegativeDirX : Bool
  nonNegativeDirZ : Bool
  dirX : ℚ
  dirZ : ℚ
  eyeX : ℚ
  eyeZ : ℚ
  deltaDistX : QInf
  deltaDistZ : QInf
  gridWidth : ℤ
  gridDepth : ℤ
  fogDistance : ℚ

/-- Embedding of `constexpr SNInt stepX = NonNegativeDirX ? 1 : -1`. -/
def DDAParams.stepX (p : DDAParams) : ℤ := if p.nonNegativeDirX then 1 else -1

/-- Embedding of `constexpr WEInt stepZ = NonNegativeDirZ ? 1 : -1`. -/
def DDAParams.stepZ (p : DDAParams) : ℤ := if p.nonNegativeDirZ then 1 else -1

/-- Embedding of `constexpr SNDouble halfOneMinusStepXReal = (1 - stepX) / 2`
(integer division: `0` when stepping `+1`, `1` when stepping `-1`). -/
def DDAParams.halfOneMinusStepXReal (p : DDAParams) : ℚ :=
  if p.nonNegativeDirX then 0 else 1

/-- Embedding of `constexpr WEDouble halfOneMinusStepZReal = (1 - stepZ) / 2`. -/
def DDAParams.halfOneMinusStepZReal (p : DDAParams) : ℚ :=
  if p.nonNegativeDirZ then 0 else 1

/-- The mutable locals of the DDA loop: the current cell, the delta
distance sums, the Z distance and facing of the current edge point, and the
validity flag. -/
structure DDAState where
  cellX : ℤ
  cellZ : ℤ
  deltaDistSumX : QInf
  deltaDistSumZ : QInf
  zDistance : QInf
  facing : VoxelFacing
  voxelIsValid : Bool

/-- Embedding of `doDDAStep`: step to the next XZ coordinate and update the
Z distance for the current edge point. -/
def doDDAStep (p : DDAParams) (s : DDAState) : DDAState :=
  if s.deltaDistSumX.lt s.deltaDistSumZ then
    let cellX := s.cellX + p.stepX
    { s with
      deltaDistSumX := s.deltaDistSumX.add p.deltaDistX
      cellX := cellX
      facing := if p.nonNegativeDirX then VoxelFacing.negativeX else VoxelFacing.positiveX
      voxelIsValid := s.voxelIsValid && (decide (cellX ≥ 0) && decide (cellX < p.gridWidth))
      zDistance := qdivInf (((cellX : ℚ) - p.eyeX) + p.halfOneMinusStepXReal) p.dirX }
  else
    let cellZ := s.cellZ + p.stepZ
    { s with
      deltaDistSumZ := s.deltaDistSumZ.add p.deltaDistZ
      cellZ := cellZ
      facing := if p.nonNegativeDirZ then VoxelFacing.negativeZ else VoxelFacing.positiveZ
      voxelIsValid := s.voxelIsValid && (decide (cellZ ≥ 0) && decide (cellZ < p.gridDepth))
      zDistance := qdivInf (((cellZ : ℚ) - p.eyeZ) + p.halfOneMinusStepZReal) p.dirZ }

/-- The loop condition of the `while` at line 7606: the voxel is valid, the
Z distance is below the fog distance, and the occlusion window of the column is
non-empty. `occ` is the `(yMin, yMax)` pair of the
`OcclusionData` of the column at the time of the check. -/
def ddaGuard (p : DDAParams) (occ : ℤ × ℤ) (s : DDAState) : Bool :=
  s.voxelIsValid && s.zDistance.lt (.fin p.fogDistance) && (occ.1 != occ.2)

/-- The DDA state before the `n`-th guard check (the only effect of the loop body
 on this state is `doDDAStep`; the draw call mutates only the
occlusion window, which is modelled by the oracle in the theorem below). -/
def ddaIterate (p : DDAParams) (s : DDAState) : ℕ → DDAState
  | 0 => s
  | n + 1 => ddaIterate p (doDDAStep p s) n

/-- Steps remaining before the stepped coordinate must leave the grid:
the stepped axis moves monotonically toward its exit. -/
def ddaMeasure (p : DDAParams) (s : DDAState) : ℕ :=
  (if p.nonNegativeDirX then (p.gridWidth - s.cellX).toNat else (s.cellX + 1).toNat) +
  (if p.nonNegativeDirZ then (p.gridDepth - s.cellZ).toNat else (s.cellZ + 1).toNat)

theorem doDDAStep_measure_lt (p : DDAParams) (s : DDAState)
    (hvalid : (doDDAStep p s).voxelIsValid = true) :
    ddaMeasure p (doDDAStep p s) < ddaMeasure p s := by
  unfold doDDAStep at hvalid ⊢
  by_cases hbr : s.deltaDistSumX.lt s.deltaDistSumZ = true
  · simp only [hbr, if_true, Bool.and_eq_true, decide_eq_true_eq] at hvalid ⊢
    simp only [ddaMeasure, DDAParams.stepX] at hvalid ⊢
    by_cases hx : p.nonNegativeDirX = true <;>
      simp only [hx, if_true, if_false, Bool.false_eq_true] at hvalid ⊢ <;> omega
  · simp only [hbr, if_false, Bool.false_eq_true, Bool.and_eq_true,
      decide_eq_true_eq] at hvalid ⊢
    simp only [ddaMeasure, DDAParams.stepZ] at hvalid ⊢
    by_cases hz : p.nonNegativeDirZ = true <;>
      simp only [hz, if_true, if_false, Bool.false_eq_true] at hvalid ⊢ <;> omega

theorem ddaIterate_eventually_invalid (p : DDAParams) :
    ∀ (k : ℕ) (s : DDAState), ddaMeasure p s ≤ k →
    ∃ n : ℕ, (ddaIterate p s n).voxelIsValid = false := by
  intro k
  induction k with
  | zero =>
    intro s hm
    by_cases hv : s.voxelIsValid = true
    · by_cases hv1 : (doDDAStep p s).voxelIsValid = true
      · exact absurd (doDDAStep_measure_lt p s hv1) (by omega)
      · exact ⟨1, by simpa [ddaIterate] using Bool.eq_false_iff.mpr hv1⟩
    · exact ⟨0, by simpa [ddaIterate] using Bool.eq_false_iff.mpr hv⟩
  | succ k ih =>
    intro s hm
    by_cases hv : s.voxelIsValid = true
    · by_cases hv1 : (doDDAStep p s).voxelIsValid = true
      · have hlt := doDDAStep_measure_lt p s hv1
        obtain ⟨n, hn⟩ := ih (doDDAStep p s) (by omega)
        exact ⟨n + 1, hn⟩
      · exact ⟨1, by simpa [ddaIterate] using Bool.eq_false_iff.mpr hv1⟩
    · exact ⟨0, by simpa [ddaIterate] using Bool.eq_false_iff.mpr hv⟩

/-- Claim C2: The per-column 2D DDA loop always terminates — for every ray,
grid, initial state and every possible behavior of the occlusion window
(the `occl` oracle gives the window at each check, covering everything the
draw calls can do to it), some iteration falsifies the loop guard — and
the guard holds exactly when the stepped voxel is inside the grid bounds,
the accumulated Z distance is below the fog distance, and the occlusion
window is non-empty; while all three hold the loop keeps stepping
(`ddaIterate` applies `doDDAStep` at every iteration). -/
theorem rayCast2D_dda_terminates (p : DDAParams) (s : DDAState)
    (occl : ℕ → ℤ × ℤ) :
    (∃ n : ℕ, ddaGuard p (occl n) (ddaIterate p s n) = false) ∧
    (∀ (occ : ℤ × ℤ) (t : DDAState),
      ddaGuard p occ t = true ↔
        (t.voxelIsValid = true ∧ t.zDistance.lt (.fin p.fogDistance) = true ∧
         occ.1 ≠ occ.2)) := by
  constructor
  · obtain ⟨n, hn⟩ := ddaIterate_eventually_invalid p (ddaMeasure p s) s le_rfl
    exact ⟨n, by simp [ddaGuard, hn]⟩
  · intro occ t
    simp [ddaGuard, Bool.and_eq_true, bne_iff_ne, and_assoc]

/- ### Diagonal-wall intersection (SoftwareRenderer.cpp lines 2558-2719) -/

/-- Embedding of `RayHit`: inner Z depth, hit coordinate U, hit point, and
face normal. A C++ solver returning `false` leaves the record untouched;
this is modelled by returning `Option RayHit`. -/
structure RayHit where
  innerZ : ℚ
  u : ℚ
  point : Double2
  normal : Double3
  deriving DecidableEq

/-- Modelled from the spec: `RendererUtils::getDiag1Points2D`
(RendererUtils.cpp is not under `src/`): the diagonal with slope `x = z`
runs between opposite cell corners, with its middle at the cell center;
start `(voxelX, voxelZ)`, middle `(voxelX+0.5, voxelZ+0.5)`,
end `(voxelX+1, voxelZ+1)`. -/
def getDiag1Points2D (voxelX voxelZ : ℤ) : Double2 × Double2 × Double2 :=
  (⟨(voxelX : ℚ), (voxelZ : ℚ)⟩,
   ⟨(voxelX : ℚ) + 1/2, (voxelZ : ℚ) + 1/2⟩,
   ⟨(voxelX : ℚ) + 1, (voxelZ : ℚ) + 1⟩)

/-- Modelled from the spec: `RendererUtils::getDiag2Points2D` (not under
`src/`): the diagonal with slope `x = -z` between the other pair of
corners; start `(voxelX+1, voxelZ)`, middle `(voxelX+0.5, voxelZ+0.5)`,
end `(voxelX, voxelZ+1)`. -/
def getDiag2Points2D (voxelX voxelZ : ℤ) : Double2 × Double2 × Double2 :=
  (⟨(voxelX : ℚ) + 1, (voxelZ : ℚ)⟩,
   ⟨(voxelX : ℚ) + 1/2, (voxelZ : ℚ) + 1/2⟩,
   ⟨(voxelX : ℚ), (voxelZ : ℚ) + 1⟩)

/-- The left-face normal of a diag1 wall (magic number is `sqrt(2)/2` as
written in the source: `0.7071068`). -/
def diag1LeftNormal : Double3 := ⟨7071068 / 10000000, 0, -(7071068 / 10000000)⟩

/-- The right-face normal of a diag1 wall. -/
def diag1RightNormal : Double3 := ⟨-(7071068 / 10000000), 0, 7071068 / 10000000⟩

/-- The left-face normal of a diag2 wall. -/
def diag2LeftNormal : Double3 := ⟨7071068 / 10000000, 0, 7071068 / 10000000⟩

/-- The right-face normal of a diag2 wall. -/
def diag2RightNormal : Double3 := ⟨-(7071068 / 10000000), 0, -(7071068 / 10000000)⟩

/-- The signed side value `leftNormal2D.dot(p - diagMiddle)` used by
`findDiag1Intersection` to classify a point against the diagonal. -/
def diag1Side (voxelX voxelZ : ℤ) (p : Double2) : ℚ :=
  (Double2.mk diag1LeftNormal.x diag1LeftNormal.z).dot
    (p.sub (getDiag1Points2D voxelX voxelZ).2.1)

/-- The signed side value used by `findDiag2Intersection`. -/
def diag2Side (voxelX voxelZ : ℤ) (p : Double2) : ℚ :=
  (Double2.mk diag2LeftNormal.x diag2LeftNormal.z).dot
    (p.sub (getDiag2Points2D voxelX voxelZ).2.1)

/-- Embedding of `SoftwareRenderer::findDiag1Intersection`. `sq` abstracts
`std::sqrt` (used only for `hit.innerZ`). -/
def findDiag1Intersection (sq : ℚ → ℚ) (voxelX voxelZ : ℤ)
    (nearPoint farPoint : Double2) : Option RayHit :=
  let diagStart := (getDiag1Points2D voxelX voxelZ).1
  let diagEnd := (getDiag1Points2D voxelX voxelZ).2.2
  -- An intersection occurs iff the near and far points are on different
  -- sides of the diagonal line (with "on the line" counted as left).
  let nearOnLeft := diag1Side voxelX voxelZ nearPoint ≥ 0
  let farOnLeft := diag1Side voxelX voxelZ farPoint ≥ 0
  let intersectionOccurred := (nearOnLeft ∧ ¬farOnLeft) ∨ (¬nearOnLeft ∧ farOnLeft)
  if intersectionOccurred then
    let dx := farPoint.x - nearPoint.x
    let dz := farPoint.y - nearPoint.y
    let isHorizontal := |dx| < epsilonC
    let isVertical := |dz| < epsilonC
    let hitCoordinate :=
      if isHorizontal then
        -- The X axis intercept is the intersection coordinate.
        nearPoint.x - diagStart.x
      else if isVertical then
        -- The Z axis intercept is the intersection coordinate.
        nearPoint.y - diagStart.y
      else
        -- General line intersection calculation (diagSlope = 1).
        let diagXIntercept := diagStart.x - diagStart.y
        let raySlope := dx / dz
        let rayXIntercept := nearPoint.x - raySlope * nearPoint.y
        ((rayXIntercept - diagXIntercept) / (1 - raySlope)) - diagStart.y
    let point := diagStart.add ((diagEnd.sub diagStart).scale hitCoordinate)
    some
      { u := clampQ hitCoordinate 0 justBelowOne
        point := point
        innerZ := (point.sub nearPoint).length sq
        normal := if nearOnLeft then diag1LeftNormal else diag1RightNormal }
  else
    none

/-- Embedding of `SoftwareRenderer::findDiag2Intersection`. -/
def findDiag2Intersection (sq : ℚ → ℚ) (voxelX voxelZ : ℤ)
    (nearPoint farPoint : Double2) : Option RayHit :=
  let diagStart := (getDiag2Points2D voxelX voxelZ).1
  let diagEnd := (getDiag2Points2D voxelX voxelZ).2.2
  let nearOnLeft := diag2Side voxelX voxelZ nearPoint ≥ 0
  let farOnLeft := diag2Side voxelX voxelZ farPoint ≥ 0
  let intersectionOccurred := (nearOnLeft ∧ ¬farOnLeft) ∨ (¬nearOnLeft ∧ farOnLeft)
  if intersectionOccurred then
    let dx := farPoint.x - nearPoint.x
    let dz := farPoint.y - nearPoint.y
    let isHorizontal := |dx| < epsilonC
    let isVertical := |dz| < epsilonC
    let hitCoordinate :=
      if isHorizontal then
        -- The X axis intercept is the compliment of the intersection coordinate.
        justBelowOne - (nearPoint.x - diagStart.x)
      else if isVertical then
        -- The Z axis intercept is the compliment of the intersection coordinate.
        justBelowOne - (nearPoint.y - diagStart.y)
      else
        -- General line intersection calculation (diagSlope = -1).
        let diagXIntercept := diagStart.x + diagStart.y
        let raySlope := dx / dz
        let rayXIntercept := nearPoint.x - raySlope * nearPoint.y
        ((rayXIntercept - diagXIntercept) / (-1 - raySlope)) - diagStart.y
    let point := diagStart.add ((diagEnd.sub diagStart).scale hitCoordinate)
    some
      { u := clampQ (justBelowOne - hitCoordinate) 0 justBelowOne
        point := point
        innerZ := (point.sub nearPoint).length sq
        normal := if nearOnLeft then diag2LeftNormal else diag2RightNormal }
  else
    none

theorem justBelowOne_lt_one : justBelowOne < 1 := by
  unfold justBelowOne epsilonC; norm_num

theorem justBelowOne_nonneg : (0 : ℚ) ≤ justBelowOne := by
  unfold justBelowOne epsilonC; norm_num

/-- Claim C3: For every `(voxelX, voxelZ, nearPoint, farPoint)`: if the near
and far points are both strictly on one side of the diagonal line of the cell
(same strict sign of the diagonal side value), `findDiag1Intersection` and
`findDiag2Intersection` return no hit (and in particular leave the hit
record unset); if the points straddle the diagonal (strictly opposite
signs), they return a hit whose coordinate `u` lies in `[0, 1)`. -/
theorem findDiagIntersection_side_cases (sq : ℚ → ℚ) (voxelX voxelZ : ℤ)
    (nearPoint farPoint : Double2) :
    (((0 < diag1Side voxelX voxelZ nearPoint ∧ 0 < diag1Side voxelX voxelZ farPoint) ∨
      (diag1Side voxelX voxelZ nearPoint < 0 ∧ diag1Side voxelX voxelZ farPoint < 0)) →
      findDiag1Intersection sq voxelX voxelZ nearPoint farPoint = none) ∧
    (((0 < diag1Side voxelX voxelZ nearPoint ∧ diag1Side voxelX voxelZ farPoint < 0) ∨
      (diag1Side voxelX voxelZ nearPoint < 0 ∧ 0 < diag1Side voxelX voxelZ farPoint)) →
      ∃ hit : RayHit,
        findDiag1Intersection sq voxelX voxelZ nearPoint farPoint = some hit ∧
        0 ≤ hit.u ∧ hit.u < 1) ∧
    (((0 < diag2Side voxelX voxelZ nearPoint ∧ 0 < diag2Side voxelX voxelZ farPoint) ∨
      (diag2Side voxelX voxelZ nearPoint < 0 ∧ diag2Side voxelX voxelZ farPoint < 0)) →
      findDiag2Intersection sq voxelX voxelZ nearPoint farPoint = none) ∧
    (((0 < diag2Side voxelX voxelZ nearPoint ∧ diag2Side voxelX voxelZ farPoint < 0) ∨
      (diag2Side voxelX voxelZ nearPoint < 0 ∧ 0 < diag2Side voxelX voxelZ farPoint)) →
      ∃ hit : RayHit,
        findDiag2Intersection sq voxelX voxelZ nearPoint farPoint = some hit ∧
        0 ≤ hit.u ∧ hit.u < 1) := by
  refine ⟨?_, ?_, ?_, ?_⟩
  · intro h
    simp only [findDiag1Intersection]
    rw [ite_eq_right_iff]
    intro hcontra
    exfalso
    rcases h with ⟨h1, h2⟩ | ⟨h1, h2⟩ <;> rcases hcontra with ⟨ha, hb⟩ | ⟨ha, hb⟩ <;>
      simp only [ge_iff_le, not_le] at ha hb <;> linarith
  · intro h
    simp only [findDiag1Intersection]
    have hocc : ((diag1Side voxelX voxelZ nearPoint ≥ 0 ∧
        ¬diag1Side voxelX voxelZ farPoint ≥ 0) ∨
        (¬diag1Side voxelX voxelZ nearPoint ≥ 0 ∧
        diag1Side voxelX voxelZ farPoint ≥ 0)) := by
      rcases h with ⟨h1, h2⟩ | ⟨h1, h2⟩
      · exact Or.inl ⟨le_of_lt h1, not_le.mpr h2⟩
      · exact Or.inr ⟨not_le.mpr h1, le_of_lt h2⟩
    rw [if_pos hocc]
    exact ⟨_, rfl, clampQ_nonneg _ _ justBelowOne_nonneg,
      lt_of_le_of_lt (clampQ_le _ _ _ justBelowOne_nonneg) justBelowOne_lt_one⟩
  · intro h
    simp only [findDiag2Intersection]
    rw [ite_eq_right_iff]
    intro hcontra
    exfalso
    rcases h with ⟨h1, h2⟩ | ⟨h1, h2⟩ <;> rcases hcontra with ⟨ha, hb⟩ | ⟨ha, hb⟩ <;>
      simp only [ge_iff_le, not_le] at ha hb <;> linarith
  · intro h
    simp only [findDiag2Intersection]
    have hocc : ((diag2Side voxelX voxelZ nearPoint ≥ 0 ∧
        ¬diag2Side voxelX voxelZ farPoint ≥ 0) ∨
        (¬diag2Side voxelX voxelZ nearPoint ≥ 0 ∧
        diag2Side voxelX voxelZ farPoint ≥ 0)) := by
      rcases h with ⟨h1, h2⟩ | ⟨h1, h2⟩
      · exact Or.inl ⟨le_of_lt h1, not_le.mpr h2⟩
      · exact Or.inr ⟨not_le.mpr h1, le_of_lt h2⟩
    rw [if_pos hocc]
    exact ⟨_, rfl, clampQ_nonneg _ _ justBelowOne_nonneg,
      lt_of_le_of_lt (clampQ_le _ _ _ justBelowOne_nonneg) justBelowOne_lt_one⟩

/-- Witness for C3: a straddling ray through cell `(0,0)` hits both
diagonals with `u ∈ [0, 1)`, and a ray kept on one side of diag1 misses. -/
theorem findDiagIntersection_side_cases_witness :
    (findDiag1Intersection (fun q => q) 0 0 ⟨1, 0⟩ ⟨3/4, 1/2⟩ = none) ∧
    (∃ hit : RayHit,
      findDiag1Intersection (fun q => q) 0 0 ⟨1, 0⟩ ⟨0, 1⟩ = some hit ∧
      0 ≤ hit.u ∧ hit.u < 1) ∧
    (∃ hit : RayHit,
      findDiag2Intersection (fun q => q) 0 0 ⟨0, 0⟩ ⟨1, 1⟩ = some hit ∧
      0 ≤ hit.u ∧ hit.u < 1) := by
  refine ⟨?_, ?_, ?_⟩
  · exact (findDiagIntersection_side_cases (fun q => q) 0 0 ⟨1, 0⟩ ⟨3/4, 1/2⟩).1
      (by left; constructor <;>
        norm_num [diag1Side, getDiag1Points2D, diag1LeftNormal, Double2.dot, Double2.sub])
  · exact (findDiagIntersection_side_cases (fun q => q) 0 0 ⟨1, 0⟩ ⟨0, 1⟩).2.1
      (by left; constructor <;>
        norm_num [diag1Side, getDiag1Points2D, diag1LeftNormal, Double2.dot, Double2.sub])
  · exact (findDiagIntersection_side_cases (fun q => q) 0 0 ⟨0, 0⟩ ⟨1, 1⟩).2.2.2
      (by right; constructor <;>
        norm_num [diag2Side, getDiag2Points2D, diag2LeftNormal, Double2.dot, Double2.sub])

/- ### Door intersection (SoftwareRenderer.cpp lines 3128-3344) -/

/-- Embedding of `VoxelDefinition::DoorData::Type`. -/
inductive DoorType where
  | swinging
  | sliding
  | raising
  | splitting
  deriving DecidableEq

/-- Embedding of `SoftwareRenderer::DOOR_MIN_VISIBLE` (line 1013). -/
def DOOR_MIN_VISIBLE : ℚ := 10 / 100

/-- Modelled from the spec: `VoxelDefinition::getNormal`
(VoxelDefinition.cpp is not under `src/`), the outward unit normal of each
facing. -/
def getNormal : VoxelFacing → Double3
  | .positiveX => ⟨1, 0, 0⟩
  | .negativeX => ⟨-1, 0, 0⟩
  | .positiveZ => ⟨0, 0, 1⟩
  | .negativeZ => ⟨0, 0, -1⟩

/-- Modelled from the spec: `CardinalDirection::North/South/East/West`
(CardinalDirection.cpp is not under `src/`), the four axis-aligned unit
directions in the XZ plane (North toward `+X`, East toward `-Z`); only
used by the swinging-door branch, which no claim below depends on. -/
def cardinalNorth : Double2 := ⟨1, 0⟩

def cardinalSouth : Double2 := ⟨-1, 0⟩

def cardinalEast : Double2 := ⟨0, -1⟩

def cardinalWest : Double2 := ⟨0, 1⟩

/-- Modelled from the spec: `Vector2::leftPerp` (Vector2.h is not under `src/`), the left perpendicular. -/
def Double2.leftPerp (v : Double2) : Double2 := ⟨-v.y, v.x⟩

/-- Modelled from the spec: `Vector2::rightPerp` (Vector2.h is not under `src/`), the right perpendicular. -/
def Double2.rightPerp (v : Double2) : Double2 := ⟨v.y, -v.x⟩

/-- Modelled from the spec: `Vector2::lerp` (Vector2.h is not under `src/`), linear interpolation. -/
def Double2.lerp (a b : Double2) (t : ℚ) : Double2 :=
  ⟨a.x + (b.x - a.x) * t, a.y + (b.y - a.y) * t⟩

/-- Modelled from the spec: `Vector2::normalized` (Vector2.h is not under `src/`), with `std::sqrt` abstracted as `sq`. -/
def Double2.normalized (sq : ℚ → ℚ) (v : Double2) : Double2 :=
  let len := v.length sq
  ⟨v.x / len, v.y / len⟩

/-- Embedding of the 2D vector cross product (the local lambda in
`findSwingingDoorIntersection`). -/
def cross2D (a b : Double2) : ℚ := a.x * b.y - b.x * a.y

/-- Embedding of `SoftwareRenderer::findSwingingDoorIntersection`. The
ray/door line-line solve divides by `cross(v1, v2)`; when that cross
product is zero the IEEE quotient is infinite or NaN and the `0 <= t < 1`
test always fails, modelled by returning no hit directly. -/
def findSwingingDoorIntersection (sq : ℚ → ℚ) (voxelX voxelZ : ℤ)
    (percentOpen : ℚ) (nearFacing : VoxelFacing)
    (nearPoint farPoint : Double2) (nearU : ℚ) : Option RayHit :=
  -- Decide which corner the hinge of the door will be in.
  let interpStart :=
    match nearFacing with
    | .positiveX => cardinalNorth
    | .negativeX => cardinalSouth
    | .positiveZ => cardinalEast
    | .negativeZ => cardinalWest
  let corner : ℤ × ℤ :=
    match nearFacing with
    | .positiveX => (voxelX + 1, voxelZ + 1)
    | .negativeX => (voxelX, voxelZ)
    | .positiveZ => (voxelX, voxelZ + 1)
    | .negativeZ => (voxelX + 1, voxelZ)
  let cornerReal : Double2 := ⟨(corner.1 : ℚ), (corner.2 : ℚ)⟩
  -- Bias the pivot towards the voxel center slightly to avoid Z-fighting.
  let voxelCenter : Double2 := ⟨(voxelX : ℚ) + 1/2, (voxelZ : ℚ) + 1/2⟩
  let bias := (voxelCenter.sub cornerReal).scale epsilonC
  let pivot := cornerReal.add bias
  -- Fully open position is the left perpendicular of the closed position.
  let interpEnd := interpStart.leftPerp
  let doorVec := (interpStart.lerp interpEnd (1 - percentOpen)).normalized sq
  let p1 := pivot
  let v1 := doorVec
  let p2 := nearPoint
  let v2 := farPoint.sub nearPoint
  if cross2D v1 v2 = 0 then
    none
  else
    -- Percent from p1 to (p1 + v1).
    let t := cross2D (p2.sub p1) v2 / cross2D v1 v2
    if (t ≥ 0) ∧ (t < 1) then
      let point := p1.add (v1.scale t)
      some
        { point := point
          innerZ := (point.sub nearPoint).length sq
          u := t
          normal := ⟨v1.rightPerp.x, 0, v1.rightPerp.y⟩ }
    else
      none

/-- Embedding of `SoftwareRenderer::findDoorIntersection` (lines
3222-3344), for a door whose near face was hit by the wall sweep. -/
def findDoorIntersection (sq : ℚ → ℚ) (voxelX voxelZ : ℤ)
    (doorType : DoorType) (percentOpen : ℚ) (nearFacing : VoxelFacing)
    (nearPoint farPoint : Double2) (nearU : ℚ) : Option RayHit :=
  -- Check trivial case first: whether the door is closed.
  let isClosed := percentOpen = 0
  if isClosed then
    -- Treat like a wall.
    some { innerZ := 0, u := nearU, point := nearPoint, normal := getNormal nearFacing }
  else if doorType = DoorType.swinging then
    findSwingingDoorIntersection sq voxelX voxelZ percentOpen nearFacing
      nearPoint farPoint nearU
  else if doorType = DoorType.sliding then
    -- If near U coordinate is within percent closed, it is a hit.
    let visibleAmount := 1 - (1 - DOOR_MIN_VISIBLE) * percentOpen
    if visibleAmount > nearU then
      some
        { innerZ := 0
          u := clampQ (nearU + (1 - visibleAmount)) 0 justBelowOne
          point := nearPoint
          normal := getNormal nearFacing }
    else
      none
  else if doorType = DoorType.raising then
    -- Raising doors are always hit.
    some { innerZ := 0, u := nearU, point := nearPoint, normal := getNormal nearFacing }
  else if doorType = DoorType.splitting then
    -- If near U coordinate is within percent closed on left or right half,
    -- it is a hit.
    let leftHalf := nearU < 1/2
    let rightHalf := nearU > 1/2
    let leftVisAmount := 1/2 - (1/2 - DOOR_MIN_VISIBLE) * percentOpen
    let rightVisAmount := 1/2 + (1/2 - DOOR_MIN_VISIBLE) * percentOpen
    let success :=
      if leftHalf then nearU ≤ leftVisAmount
      else if rightHalf then nearU ≥ rightVisAmount
      else percentOpen = 0
    if success then
      let u :=
        if leftHalf then (nearU + 1/2) - leftVisAmount
        else if rightHalf then (nearU + 1/2) - rightVisAmount
        else 1/2
      some
        { innerZ := 0
          u := clampQ u 0 justBelowOne
          point := nearPoint
          normal := getNormal nearFacing }
    else
      none
  else
    -- Invalid door type (unreachable for the four members of the enum).
    none

/-- Claim C4: For every door type and every `(nearFacing, nearPoint,
farPoint, nearU)`, calling `findDoorIntersection` with `percentOpen = 0.0`
returns a hit whose U is the wall-formula U for the crossed face
(`hit.u = nearU`), with `hit.point = nearPoint`, `hit.innerZ = 0`, and the
outward normal of the face: a closed door behaves exactly as a solid wall. -/
theorem findDoorIntersection_closed_is_wall (sq : ℚ → ℚ) (voxelX voxelZ : ℤ)
    (doorType : DoorType) (nearFacing : VoxelFacing)
    (nearPoint farPoint : Double2) (nearU : ℚ) :
    findDoorIntersection sq voxelX voxelZ doorType 0 nearFacing
      nearPoint farPoint nearU =
    some { innerZ := 0, u := nearU, point := nearPoint,
           normal := getNormal nearFacing } := by
  simp [findDoorIntersection]

/- ### Point-light contribution (SoftwareRenderer.cpp lines 3373-3401) -/

/-- Embedding of `SoftwareRenderer::VisibleLight`: world position and radius. -/
structure VisibleLight where
  position : Double3
  radius : ℚ

/-- Embedding of `SoftwareRenderer::getVisibleLightByID` (line 2387):
index into the visible-light buffer (the caller guarantees the ID is in range; an
out-of-range read is modelled with a default element, which no theorem
below depends on). -/
def getVisibleLightByID (visLights : List VisibleLight) (lightID : ℕ) : VisibleLight :=
  visLights.getD lightID ⟨⟨0, 0, 0⟩, 1⟩

/-- The summation loop of `getLightContributionAtPoint<CappedSum>`:
`acc` is `lightContributionPercent`; with `cappedSum` the sum saturates at
`1.0` and breaks out of the loop. `sq` abstracts `std::sqrt`. -/
def lightContribLoop (cappedSum : Bool) (sq : ℚ → ℚ) (point : Double2)
    (visLights : List VisibleLight) : List ℕ → ℚ → ℚ
  | [], acc => acc
  | lightID :: rest, acc =>
    let light := getVisibleLightByID visLights lightID
    let lightDistSqr :=
      (light.position.x - point.x) * (light.position.x - point.x) +
      (light.position.z - point.y) * (light.position.z - point.y)
    let lightDist := sq lightDistSqr
    let val := (light.radius - lightDist) / light.radius
    let acc1 := acc + clampQ val 0 1
    if cappedSum ∧ acc1 ≥ 1 then 1
    else lightContribLoop cappedSum sq point visLights rest acc1

/-- Embedding of `SoftwareRenderer::getLightContributionAtPoint<CappedSum>`:
sum of the per-light contributions `clamp((radius - dist) / radius, 0, 1)` over the
visible-light ID list of the column. -/
def getLightContributionAtPoint (cappedSum : Bool) (sq : ℚ → ℚ)
    (point : Double2) (visLights : List VisibleLight)
    (visLightList : List ℕ) : ℚ :=
  lightContribLoop cappedSum sq point visLights visLightList 0

theorem lightContribLoop_capped_bounds (sq : ℚ → ℚ) (point : Double2)
    (visLights : List VisibleLight) (ids : List ℕ) (acc : ℚ)
    (h0 : 0 ≤ acc) (h1 : acc < 1) :
    0 ≤ lightContribLoop true sq point visLights ids acc ∧
    lightContribLoop true sq point visLights ids acc ≤ 1 := by
  induction ids generalizing acc with
  | nil => exact ⟨h0, le_of_lt h1⟩
  | cons lightID rest ih =>
    rw [lightContribLoop]
    by_cases hcap : (true = true ∧
        acc + clampQ ((((getVisibleLightByID visLights lightID).radius -
          sq (((getVisibleLightByID visLights lightID).position.x - point.x) *
            ((getVisibleLightByID visLights lightID).position.x - point.x) +
            ((getVisibleLightByID visLights lightID).position.z - point.y) *
            ((getVisibleLightByID visLights lightID).position.z - point.y)))) /
          (getVisibleLightByID visLights lightID).radius) 0 1 ≥ 1)
    · rw [if_pos hcap]
      norm_num
    · rw [if_neg hcap]
      have hclamp0 : (0 : ℚ) ≤ clampQ ((((getVisibleLightByID visLights
          lightID).radius - sq (((getVisibleLightByID visLights
          lightID).position.x - point.x) * ((getVisibleLightByID visLights
          lightID).position.x - point.x) + ((getVisibleLightByID visLights
          lightID).position.z - point.y) * ((getVisibleLightByID visLights
          lightID).position.z - point.y)))) /
          (getVisibleLightByID visLights lightID).radius) 0 1 :=
        clampQ_nonneg _ _ (by norm_num)
      have hlt : acc + clampQ ((((getVisibleLightByID visLights
          lightID).radius - sq (((getVisibleLightByID visLights
          lightID).position.x - point.x) * ((getVisibleLightByID visLights
          lightID).position.x - point.x) + ((getVisibleLightByID visLights
          lightID).position.z - point.y) * ((getVisibleLightByID visLights
          lightID).position.z - point.y)))) /
          (getVisibleLightByID visLights lightID).radius) 0 1 < 1 := by
        by_contra hge
        exact hcap ⟨rfl, not_lt.mp hge⟩
      exact ih _ (by linarith) hlt

/-- Counterexample to C6 as stated: two coincident lights of radius 10 at
distance 8 from the sample point — within the radius — each contribute
`(10 - 8) / 10 = 1/5`, so the capped sum is `2/5`, not `1.0` (the
accumulator never reaches the cap, so the saturation branch is never
taken). The square root returns 8 on the computed squared distance 64. -/
theorem getLightContributionAtPoint_coincident_below_cap :
    getLightContributionAtPoint true (fun q => if q = 64 then 8 else 0) ⟨0, 0⟩
      [⟨⟨8, 0, 0⟩, 10⟩, ⟨⟨8, 0, 0⟩, 10⟩] [0, 1] = 2/5 ∧
    (2/5 : ℚ) ≠ 1 ∧ (8 : ℚ) < 10 := by
  refine ⟨?_, by norm_num, by norm_num⟩
  norm_num [getLightContributionAtPoint, lightContribLoop, getVisibleLightByID,
    clampQ]

/-- Claim C6, amended: For every point and every visible-light list, capped
`getLightContributionAtPoint` returns a value in `[0, 1]` — it never
exceeds `1.0`, and whenever the running sum reaches `1.0` it saturates at
exactly `1.0` — where the contribution of each light is
`(radius - distance) / radius` clamped to `[0, 1]`; two coincident lights
of positive radius `R` yield a capped sum of exactly `1.0` when each
contribution `(R - distance) / R` is at least `1/2` (distance at most
`R/2`, which includes distance zero); at larger distances within the
radius the capped sum is `2 * (R - distance) / R < 1`, as the
counterexample shows. -/
theorem getLightContributionAtPoint_capped_behavior (sq : ℚ → ℚ)
    (point : Double2) (visLights : List VisibleLight) (visLightList : List ℕ) :
    (0 ≤ getLightContributionAtPoint true sq point visLights visLightList ∧
     getLightContributionAtPoint true sq point visLights visLightList ≤ 1) ∧
    (∀ px pz R : ℚ, 0 < R →
      1/2 ≤ (R - sq ((px - point.x) * (px - point.x) +
        (pz - point.y) * (pz - point.y))) / R →
      getLightContributionAtPoint true sq point
        [⟨⟨px, 0, pz⟩, R⟩, ⟨⟨px, 0, pz⟩, R⟩] [0, 1] = 1) := by
  constructor
  · exact lightContribLoop_capped_bounds sq point visLights visLightList 0
      le_rfl one_pos
  · intro px pz R hR hge
    have hcle : clampQ ((R - sq ((px - point.x) * (px - point.x) +
        (pz - point.y) * (pz - point.y))) / R) 0 1 ≤ 1 :=
      clampQ_le _ _ _ (by norm_num)
    have hcge : (1 : ℚ)/2 ≤ clampQ ((R - sq ((px - point.x) * (px - point.x) +
        (pz - point.y) * (pz - point.y))) / R) 0 1 := by
      unfold clampQ; split_ifs <;> linarith
    rw [getLightContributionAtPoint, lightContribLoop]
    simp only [getVisibleLightByID, List.getD_cons_zero]
    by_cases hcap : (0 : ℚ) + clampQ ((R - sq ((px - point.x) * (px - point.x) +
        (pz - point.y) * (pz - point.y))) / R) 0 1 ≥ 1
    · rw [if_pos ⟨trivial, hcap⟩]
    · rw [if_neg (fun h => hcap h.2)]
      rw [lightContribLoop]
      simp only [getVisibleLightByID, List.getD_cons_succ, List.getD_cons_zero]
      rw [if_pos ⟨trivial, by linarith⟩]

/-- Witness for the amended C6 at a concrete square root, point, light
lists and radius: distance zero gives contribution `1 ≥ 1/2`. -/
theorem getLightContributionAtPoint_capped_behavior_witness :
    ((0 ≤ getLightContributionAtPoint true (fun q => q) ⟨0, 0⟩
        [⟨⟨3, 0, 4⟩, 2⟩] [0] ∧
      getLightContributionAtPoint true (fun q => q) ⟨0, 0⟩
        [⟨⟨3, 0, 4⟩, 2⟩] [0] ≤ 1) ∧
     getLightContributionAtPoint true (fun q => q) ⟨0, 0⟩
        [⟨⟨0, 0, 0⟩, 1⟩, ⟨⟨0, 0, 0⟩, 1⟩] [0, 1] = 1) := by
  have h := getLightContributionAtPoint_capped_behavior (fun q => q) ⟨0, 0⟩
    [⟨⟨3, 0, 4⟩, 2⟩] [0]
  exact ⟨h.1, h.2 0 0 1 one_pos (by norm_num)⟩

/- ### Visible-flat culling (`updateVisibleFlats`, SoftwareRenderer.cpp
lines 1940-2004)

Per entity, the loop computes the XZ distance of the flat from the eye and
rejects it when behind the camera or outside the fog-adjusted cylinder
distance; only then is the flat projected and screen-tested before being
pushed onto the visible-flat list. The projection (a 4x4 camera transform)
and the dot product with the camera direction are external math, entering
the embedding as parameters; the claim quantifies over all of them. -/

/-- Embedding of `SoftwareRenderer::NEAR_PLANE` (line 1008). -/
def NEAR_PLANE : ℚ := 1 / 10000

/-- Embedding of `SoftwareRenderer::FAR_PLANE` (line 1009). -/
def FAR_PLANE : ℚ := 1000

/-- The projected screen bounds and camera-space depth of a flat
(`visFlat.startX/endX/startY/endY/z` as computed from the camera
transform). -/
structure FlatProjection where
  startX : ℚ
  endX : ℚ
  startY : ℚ
  endY : ℚ
  z : ℚ

/-- Whether the flat of one entity is pushed onto `visibleFlats` by
`updateVisibleFlats`: the flat must be in front of the camera
(`cameraDir.dot(flatEyeDir) > 0`, the dot product entering as the
parameter `cameraDirDotFlatEyeDir`), within the fog-adjusted cylinder
distance (`flatEyeDiffLen - flatRadius < fogDistance` with
`flatRadius = flatWidth * 0.5`, `flatEyeDiffLen` the XZ distance of the flat
from the eye), and its projection must pass the screen and near/far-plane
tests. -/
def flatIsInserted (cameraDirDotFlatEyeDir flatEyeDiffLen flatWidth
    fogDistance : ℚ) (proj : FlatProjection) : Bool :=
  let flatHalfWidth := flatWidth * (1/2)
  let inFrontOfCamera := cameraDirDotFlatEyeDir > 0
  let flatRadius := flatHalfWidth
  let flatEyeCylinderDist := flatEyeDiffLen - flatRadius
  let inFogDistance := flatEyeCylinderDist < fogDistance
  if inFrontOfCamera ∧ inFogDistance then
    let inScreenX := proj.startX < 1 ∧ proj.endX > 0
    let inScreenY := proj.startY < 1 ∧ proj.endY > 0
    let inPlanes := proj.z ≥ NEAR_PLANE ∧ proj.z ≤ FAR_PLANE
    decide (inScreenX ∧ inScreenY ∧ inPlanes)
  else
    false

/-- Claim C7: For every entity whose flat has XZ distance from the eye
strictly greater than the fog distance plus the radius of the flat (half of its
animation-frame width), `updateVisibleFlats` never inserts the entity into
the visible-flat list, regardless of its screen projection or camera
orientation. -/
theorem flat_beyond_fog_not_inserted (cameraDirDotFlatEyeDir flatEyeDiffLen
    flatWidth fogDistance : ℚ) (proj : FlatProjection)
    (hfar : flatEyeDiffLen > fogDistance + flatWidth * (1/2)) :
    flatIsInserted cameraDirDotFlatEyeDir flatEyeDiffLen flatWidth
      fogDistance proj = false := by
  unfold flatIsInserted
  rw [if_neg]
  intro hcontra
  have hfog := hcontra.2
  linarith

/-- Witness for C7: a flat 10 units away with radius 1 and fog distance 5
is not inserted. -/
theorem flat_beyond_fog_not_inserted_witness :
    flatIsInserted 1 10 2 5 ⟨0, 1, 0, 1, 1⟩ = false :=
  flat_beyond_fog_not_inserted 1 10 2 5 ⟨0, 1, 0, 1, 1⟩ (by norm_num)

/- ### Voxel texture decoding and night lights (SoftwareRenderer.cpp
lines 36-48, 91-155, 1275-1283) -/

/-- Embedding of `PALETTE_INDEX_NIGHT_LIGHT` (line 46). -/
def PALETTE_INDEX_NIGHT_LIGHT : ℕ := 113

/-- Modelled from the spec: the `Color` class (`Color.h` is not under
`src/`), an 8-bit RGBA color with four byte channels; a `Color(r, g, b)`
constructor call yields a fully opaque color. -/
structure ColorB where
  r : ℕ
  g : ℕ
  b : ℕ
  a : ℕ
  deriving DecidableEq

/-- Modelled from the spec: `Color::Black` (`Color.h` is not under `src/`), fully opaque black. -/
def colorBlack : ColorB := ⟨0, 0, 0, 255⟩

/-- The active night-light color `Color(255, 166, 0)` (line 135). -/
def colorNightLightActive : ColorB := ⟨255, 166, 0, 255⟩

/-- Embedding of `SoftwareRenderer::VoxelTexel`. -/
structure VoxelTexel where
  r : ℚ
  g : ℚ
  b : ℚ
  emission : ℚ
  transparent : Bool
  deriving DecidableEq

/-- Decoding one palette color into a voxel texel:
`Double4::fromARGB(color.toARGB())` divides each byte channel by 255
(`Vector4.h` is not under `src/`; modelled from the spec), and the texel
is transparent exactly when the decoded alpha is `0.0`. -/
def voxelTexelOfColor (c : ColorB) (emission : ℚ) : VoxelTexel :=
  { r := (c.r : ℚ) / 255
    g := (c.g : ℚ) / 255
    b := (c.b : ℚ) / 255
    emission := emission
    transparent := decide ((c.a : ℚ) / 255 = 0) }

/-- Embedding of `SoftwareRenderer::VoxelTexture`: decoded texels plus the
cached coordinates of night-light texels. -/
structure VoxelTexture where
  width : ℕ
  height : ℕ
  texels : List VoxelTexel
  lightTexels : List (ℕ × ℕ)
  deriving DecidableEq

/-- Embedding of `VoxelTexture::init` (lines 91-131): decode every source
texel through the palette with zero emission, and record the coordinates of texels whose
source palette index is the night-light index. The source texels enter as
a function `ℕ → ℕ` (the C++ reads a raw `uint8_t` pointer at
`x + y * width`). -/
def VoxelTexture.initDecode (width height : ℕ) (srcTexels : ℕ → ℕ)
    (palette : ℕ → ColorB) : VoxelTexture :=
  { width := width
    height := height
    texels := (List.range (width * height)).map fun index =>
      voxelTexelOfColor (palette (srcTexels index)) 0
    lightTexels := (List.range height).flatMap fun y =>
      (List.range width).filterMap fun x =>
        if srcTexels (x + y * width) = PALETTE_INDEX_NIGHT_LIGHT then
          some (x, y)
        else
          none }

/-- Embedding of `VoxelTexture::setLightTexelsActive` (lines 133-155):
overwrite every cached night-light texel with the hardcoded active (amber, emission 1) or
inactive (black, emission 0) color. -/
def VoxelTexture.setLightTexelsActive (t : VoxelTexture) (active : Bool) :
    VoxelTexture :=
  let color := if active then colorNightLightActive else colorBlack
  let texelEmission : ℚ := if active then 1 else 0
  { t with
    texels := t.lightTexels.foldl
      (fun texels lightTexel =>
        texels.set (lightTexel.1 + lightTexel.2 * t.width)
          (voxelTexelOfColor color texelEmission))
      t.texels }

theorem foldl_set_length {α : Type} (v : α) (f : ℕ × ℕ → ℕ)
    (l : List (ℕ × ℕ)) (init : List α) :
    (l.foldl (fun texels p => texels.set (f p) v) init).length = init.length := by
  induction l generalizing init with
  | nil => rfl
  | cons p rest ih => rw [List.foldl_cons, ih, List.length_set]

theorem foldl_set_const_preserve {α : Type} (v : α) (f : ℕ × ℕ → ℕ)
    (l : List (ℕ × ℕ)) (init : List α) (i : ℕ) (hv : init[i]? = some v) :
    (l.foldl (fun texels p => texels.set (f p) v) init)[i]? = some v := by
  induction l generalizing init with
  | nil => exact hv
  | cons p rest ih =>
    apply ih
    by_cases hpi : f p = i
    · subst hpi
      exact List.getElem?_set_eq_of_lt v (List.getElem?_eq_some.mp hv).1
    · rw [List.getElem?_set_ne hpi]
      exact hv

theorem foldl_set_const_mem {α : Type} (v : α) (f : ℕ × ℕ → ℕ)
    (l : List (ℕ × ℕ)) (init : List α) (p : ℕ × ℕ) (hp : p ∈ l)
    (hlen : f p < init.length) :
    (l.foldl (fun texels q => texels.set (f q) v) init)[f p]? = some v := by
  induction l generalizing init with
  | nil => cases hp
  | cons q rest ih =>
    rcases List.mem_cons.mp hp with hq | hrest
    · subst hq
      rw [List.foldl_cons]
      exact foldl_set_const_preserve v f rest _ _
        (List.getElem?_set_eq_of_lt v hlen)
    · rw [List.foldl_cons]
      exact ih (init.set (f q) v) hrest (by simpa using hlen)

theorem initDecode_texels_length (width height : ℕ) (srcTexels : ℕ → ℕ)
    (palette : ℕ → ColorB) :
    (VoxelTexture.initDecode width height srcTexels palette).texels.length =
      width * height := by
  simp [VoxelTexture.initDecode]

theorem initDecode_texels_get (width height : ℕ) (srcTexels : ℕ → ℕ)
    (palette : ℕ → ColorB) (i : ℕ) (hi : i < width * height) :
    (VoxelTexture.initDecode width height srcTexels palette).texels[i]? =
      some (voxelTexelOfColor (palette (srcTexels i)) 0) := by
  simp [VoxelTexture.initDecode, List.getElem?_map, List.getElem?_range hi]

theorem index_lt_of_coords (x y width height : ℕ) (hx : x < width)
    (hy : y < height) : x + y * width < width * height := by
  calc x + y * width < width + y * width := by omega
    _ = (y + 1) * width := by ring
    _ ≤ height * width := Nat.mul_le_mul_right width (by omega)
    _ = width * height := Nat.mul_comm height width

theorem mem_lightTexels_of_nightLight (width height : ℕ) (srcTexels : ℕ → ℕ)
    (palette : ℕ → ColorB) (x y : ℕ) (hx : x < width) (hy : y < height)
    (hsrc : srcTexels (x + y * width) = PALETTE_INDEX_NIGHT_LIGHT) :
    (x, y) ∈ (VoxelTexture.initDecode width height srcTexels palette).lightTexels := by
  simp only [VoxelTexture.initDecode, List.mem_flatMap, List.mem_filterMap,
    List.mem_range]
  exact ⟨y, hy, x, hx, by rw [hsrc]; simp⟩

/-- The `setLightTexelsActive(true)`-then-`(false)` double toggle. -/
def VoxelTexture.nightToggle (t : VoxelTexture) : VoxelTexture :=
  (t.setLightTexelsActive true).setLightTexelsActive false

theorem nightToggle_texel_black (width height : ℕ) (srcTexels : ℕ → ℕ)
    (palette : ℕ → ColorB) (x y : ℕ) (hx : x < width) (hy : y < height)
    (hsrc : srcTexels (x + y * width) = PALETTE_INDEX_NIGHT_LIGHT) :
    (VoxelTexture.initDecode width height srcTexels palette).nightToggle.texels[x + y * width]? =
      some (voxelTexelOfColor colorBlack 0) := by
  unfold VoxelTexture.nightToggle VoxelTexture.setLightTexelsActive
  simp only [if_true, if_false, Bool.false_eq_true, reduceIte]
  exact foldl_set_const_mem (voxelTexelOfColor colorBlack 0)
    (fun p => p.1 + p.2 * width) _ _ (x, y)
    (mem_lightTexels_of_nightLight width height srcTexels palette x y hx hy hsrc)
    (by rw [foldl_set_length, initDecode_texels_length]
        exact index_lt_of_coords x y width height hx hy)

/-- Claim C8, amended: After `setNightLightsActive(true)` then `(false)`,
every texel whose source palette index is the night-light index (113) holds
the hardcoded inactive color — opaque black with zero emission —
independent of the palette; this equals the original decoded texel produced
by `VoxelTexture::init` exactly when palette entry 113 itself decodes to
opaque black (the claim as stated, for every palette, is refuted by the
counterexample below). -/
theorem setNightLightsActive_toggle_black (width height : ℕ)
    (srcTexels : ℕ → ℕ) (palette : ℕ → ColorB) (x y : ℕ)
    (hx : x < width) (hy : y < height)
    (hsrc : srcTexels (x + y * width) = PALETTE_INDEX_NIGHT_LIGHT) :
    (VoxelTexture.initDecode width height srcTexels palette).nightToggle.texels[x + y * width]? =
      some (voxelTexelOfColor colorBlack 0) ∧
    (voxelTexelOfColor (palette PALETTE_INDEX_NIGHT_LIGHT) 0 =
        voxelTexelOfColor colorBlack 0 →
      (VoxelTexture.initDecode width height srcTexels palette).nightToggle.texels[x + y * width]? =
        (VoxelTexture.initDecode width height srcTexels palette).texels[x + y * width]?) := by
  refine ⟨nightToggle_texel_black width height srcTexels palette x y hx hy hsrc, ?_⟩
  intro hblack
  rw [nightToggle_texel_black width height srcTexels palette x y hx hy hsrc,
    initDecode_texels_get width height srcTexels palette _
      (index_lt_of_coords x y width height hx hy),
    hsrc, hblack]

/-- Witness for the amended C8 at a concrete 1x1 texture whose palette
entry 113 is opaque black. -/
theorem setNightLightsActive_toggle_black_witness :
    (VoxelTexture.initDecode 1 1 (fun _ => 113)
        (fun _ => ⟨0, 0, 0, 255⟩)).nightToggle.texels[0]? =
      some (voxelTexelOfColor colorBlack 0) ∧
    (VoxelTexture.initDecode 1 1 (fun _ => 113)
        (fun _ => ⟨0, 0, 0, 255⟩)).nightToggle.texels[0]? =
      (VoxelTexture.initDecode 1 1 (fun _ => 113)
        (fun _ => ⟨0, 0, 0, 255⟩)).texels[0]? := by
  have h := setNightLightsActive_toggle_black 1 1 (fun _ => 113)
    (fun _ => ⟨0, 0, 0, 255⟩) 0 0 (by norm_num) (by norm_num) rfl
  exact ⟨h.1, h.2 rfl⟩

/-- Counterexample to C8 as stated: with a palette whose entry 113 is not
black, the double toggle does not return the night-light texel to its
original decoded color (the code overwrites it with hardcoded black). -/
theorem setNightLightsActive_toggle_not_original :
    (VoxelTexture.initDecode 1 1 (fun _ => 113)
        (fun _ => ⟨10, 20, 30, 255⟩)).nightToggle.texels[0]? ≠
      (VoxelTexture.initDecode 1 1 (fun _ => 113)
        (fun _ => ⟨10, 20, 30, 255⟩)).texels[0]? := by
  have h1 := nightToggle_texel_black 1 1 (fun _ => 113)
    (fun _ => ⟨10, 20, 30, 255⟩) 0 0 (by norm_num) (by norm_num) rfl
  have h2 := initDecode_texels_get 1 1 (fun _ => 113)
    (fun _ => ⟨10, 20, 30, 255⟩) 0 (by norm_num)
  simp only [show 0 + 0 * 1 = 0 from rfl] at h1
  rw [h1, h2]
  intro hcontra
  have := Option.some.inj hcontra
  simp only [voxelTexelOfColor, colorBlack, VoxelTexel.mk.injEq] at this
  norm_num at this

/- ### Flat texture decoding (SoftwareRenderer.cpp lines 163-229) -/

/-- Embedding of `PALETTE_INDEX_LIGHT_LEVEL_LOWEST` (line 36). -/
def PALETTE_INDEX_LIGHT_LEVEL_LOWEST : ℕ := 1

/-- Embedding of `PALETTE_INDEX_LIGHT_LEVEL_HIGHEST` (line 37). -/
def PALETTE_INDEX_LIGHT_LEVEL_HIGHEST : ℕ := 13

/-- Embedding of `PALETTE_INDEX_LIGHT_LEVEL_DIVISOR` (line 38). -/
def PALETTE_INDEX_LIGHT_LEVEL_DIVISOR : ℕ := 14

/-- Embedding of `PALETTE_INDEX_RED_SRC1` (line 42). -/
def PALETTE_INDEX_RED_SRC1 : ℕ := 14

/-- Embedding of `PALETTE_INDEX_RED_SRC2` (line 43). -/
def PALETTE_INDEX_RED_SRC2 : ℕ := 15

/-- Embedding of `PALETTE_INDEX_RED_DST1` (line 44). -/
def PALETTE_INDEX_RED_DST1 : ℕ := 158

/-- Embedding of `PALETTE_INDEX_RED_DST2` (line 45). -/
def PALETTE_INDEX_RED_DST2 : ℕ := 159

/-- Embedding of `PALETTE_INDEX_PUDDLE_EVEN_ROW` (line 47). -/
def PALETTE_INDEX_PUDDLE_EVEN_ROW : ℕ := 30

/-- Embedding of `PALETTE_INDEX_PUDDLE_ODD_ROW` (line 48). -/
def PALETTE_INDEX_PUDDLE_ODD_ROW : ℕ := 103

/-- Embedding of `SoftwareRenderer::FlatTexel`. -/
structure FlatTexel where
  r : ℚ
  g : ℚ
  b : ℚ
  a : ℚ
  reflection : ℕ
  deriving DecidableEq

/-- The per-texel decode of `FlatTexture::init` (lines 185-226): light-level
indices 1-13 become ghost texels, puddle indices become reflection texels on
reflective flats, index 14 (15) is re-colored from palette entry 158 (159),
and everything else is colored from its own palette entry. -/
def decodeFlatTexel (reflective : Bool) (palette : ℕ → ColorB)
    (srcTexel : ℕ) : FlatTexel :=
  if PALETTE_INDEX_LIGHT_LEVEL_LOWEST ≤ srcTexel ∧
      srcTexel ≤ PALETTE_INDEX_LIGHT_LEVEL_HIGHEST then
    -- Ghost texel.
    { r := 0, g := 0, b := 0
      a := (srcTexel : ℚ) / (PALETTE_INDEX_LIGHT_LEVEL_DIVISOR : ℚ)
      reflection := 0 }
  else if reflective ∧ (srcTexel = PALETTE_INDEX_PUDDLE_EVEN_ROW ∨
      srcTexel = PALETTE_INDEX_PUDDLE_ODD_ROW) then
    -- Puddle texel.
    { r := 0, g := 0, b := 0, a := 1, reflection := srcTexel }
  else
    -- Check if the color is hardcoded to another palette index. Otherwise,
    -- color the texel normally.
    let paletteIndex :=
      if srcTexel = PALETTE_INDEX_RED_SRC1 then PALETTE_INDEX_RED_DST1
      else if srcTexel = PALETTE_INDEX_RED_SRC2 then PALETTE_INDEX_RED_DST2
      else srcTexel
    let c := palette paletteIndex
    { r := (c.r : ℚ) / 255, g := (c.g : ℚ) / 255, b := (c.b : ℚ) / 255
      a := (c.a : ℚ) / 255, reflection := 0 }

/-- Embedding of `FlatTexture::init` (lines 163-229): each source texel `(x, y)` is
written to destination index `x + y * width`, or `((width-1) - x) + y * width`
when the animation is flipped; equivalently the destination texel at index
`i` is the decode of the source texel at the horizontally mirrored column.
Expressed per destination index (each destination is written exactly once
by the loop). -/
def flatTextureInit (width height : ℕ) (srcTexels : ℕ → ℕ)
    (flipped reflective : Bool) (palette : ℕ → ColorB) : List FlatTexel :=
  (List.range (width * height)).map fun dstIndex =>
    let y := dstIndex / width
    let x := dstIndex % width
    let srcX := if flipped then (width - 1) - x else x
    decodeFlatTexel reflective palette (srcTexels (srcX + y * width))

/-- The destination index that `FlatTexture::init` writes the source texel
`(x, y)` to. -/
def flatDstIndex (width : ℕ) (flipped : Bool) (x y : ℕ) : ℕ :=
  if flipped then ((width - 1) - x) + y * width else x + y * width

/-- Decoding one palette color with full opacity semantics of the final
branch of `FlatTexture::init` (`Double4::fromARGB` divides channels by
255). -/
def flatTexelOfColor (c : ColorB) : FlatTexel :=
  { r := (c.r : ℚ) / 255, g := (c.g : ℚ) / 255, b := (c.b : ℚ) / 255
    a := (c.a : ℚ) / 255, reflection := 0 }

theorem flatTextureInit_get (width height : ℕ) (srcTexels : ℕ → ℕ)
    (flipped reflective : Bool) (palette : ℕ → ColorB) (x y : ℕ)
    (hx : x < width) (hy : y < height) :
    (flatTextureInit width height srcTexels flipped reflective palette)[flatDstIndex width flipped x y]? =
      some (decodeFlatTexel reflective palette (srcTexels (x + y * width))) := by
  have hxw : (width - 1) - ((width - 1) - x) = x := by omega
  have hdstlt : flatDstIndex width flipped x y < width * height := by
    unfold flatDstIndex
    split_ifs <;> exact index_lt_of_coords _ y width height (by omega) hy
  rw [flatTextureInit, List.getElem?_map, List.getElem?_range hdstlt]
  cases flipped with
  | false =>
    have hdiv : (x + y * width) / width = y := by
      rw [Nat.add_mul_div_right _ _ (by omega), Nat.div_eq_of_lt hx, Nat.zero_add]
    have hmod : (x + y * width) % width = x := by
      rw [Nat.add_mul_mod_self_right, Nat.mod_eq_of_lt hx]
    simp [flatDstIndex, hdiv, hmod]
  | true =>
    have hx1 : (width - 1) - x < width := by omega
    have hdiv : (((width - 1) - x) + y * width) / width = y := by
      rw [Nat.add_mul_div_right _ _ (by omega), Nat.div_eq_of_lt hx1, Nat.zero_add]
    have hmod : (((width - 1) - x) + y * width) % width = (width - 1) - x := by
      rw [Nat.add_mul_mod_self_right, Nat.mod_eq_of_lt hx1]
    simp [flatDstIndex, hdiv, hmod, hxw]

/-- Claim C9: Flat-texture decoding preserves the hardcoded red re-coloring
exactly: a source texel with palette index 14 is colored from palette entry
158, a source texel with palette index 15 is colored from palette entry
159, and every other non-special source index (outside the light-level
range 1-13 and not a puddle index on a reflective flat) is colored from
its own palette entry. -/
theorem flatTextureInit_red_remap (width height : ℕ) (srcTexels : ℕ → ℕ)
    (flipped reflective : Bool) (palette : ℕ → ColorB) (x y : ℕ)
    (hx : x < width) (hy : y < height) :
    (srcTexels (x + y * width) = PALETTE_INDEX_RED_SRC1 →
      (flatTextureInit width height srcTexels flipped reflective palette)[flatDstIndex width flipped x y]? =
        some (flatTexelOfColor (palette PALETTE_INDEX_RED_DST1))) ∧
    (srcTexels (x + y * width) = PALETTE_INDEX_RED_SRC2 →
      (flatTextureInit width height srcTexels flipped reflective palette)[flatDstIndex width flipped x y]? =
        some (flatTexelOfColor (palette PALETTE_INDEX_RED_DST2))) ∧
    (∀ s : ℕ, srcTexels (x + y * width) = s →
      ¬(PALETTE_INDEX_LIGHT_LEVEL_LOWEST ≤ s ∧ s ≤ PALETTE_INDEX_LIGHT_LEVEL_HIGHEST) →
      ¬(reflective = true ∧ (s = PALETTE_INDEX_PUDDLE_EVEN_ROW ∨ s = PALETTE_INDEX_PUDDLE_ODD_ROW)) →
      s ≠ PALETTE_INDEX_RED_SRC1 → s ≠ PALETTE_INDEX_RED_SRC2 →
      (flatTextureInit width height srcTexels flipped reflective palette)[flatDstIndex width flipped x y]? =
        some (flatTexelOfColor (palette s))) := by
  refine ⟨?_, ?_, ?_⟩
  · intro hsrc
    rw [flatTextureInit_get width height srcTexels flipped reflective palette x y hx hy,
      hsrc]
    unfold decodeFlatTexel
    rw [if_neg (by decide), if_neg (by rintro ⟨h1, h2⟩; revert h2; decide)]
    rfl
  · intro hsrc
    rw [flatTextureInit_get width height srcTexels flipped reflective palette x y hx hy,
      hsrc]
    unfold decodeFlatTexel
    rw [if_neg (by decide), if_neg (by rintro ⟨h1, h2⟩; revert h2; decide)]
    rfl
  · intro s hsrc hlight hpud h14 h15
    rw [flatTextureInit_get width height srcTexels flipped reflective palette x y hx hy,
      hsrc]
    unfold decodeFlatTexel
    rw [if_neg hlight, if_neg (by
      intro hcontra
      exact hpud ⟨by simpa using hcontra.1, hcontra.2⟩)]
    simp only [if_neg h14, if_neg h15]
    rfl

/-- Witness for C9 on a concrete 2x1 flipped texture: source index 14 at
`(0,0)` lands at destination index 1 colored from palette entry 158, and a
plain index at `(1,0)` keeps its own entry. -/
theorem flatTextureInit_red_remap_witness :
    ((flatTextureInit 2 1 (fun i => if i = 0 then 14 else 200)
        true false (fun i => ⟨i, 0, 0, 255⟩))[flatDstIndex 2 true 0 0]? =
      some (flatTexelOfColor ⟨158, 0, 0, 255⟩)) ∧
    ((flatTextureInit 2 1 (fun i => if i = 0 then 14 else 200)
        true false (fun i => ⟨i, 0, 0, 255⟩))[flatDstIndex 2 true 1 0]? =
      some (flatTexelOfColor ⟨200, 0, 0, 255⟩)) := by
  constructor
  · exact (flatTextureInit_red_remap 2 1 (fun i => if i = 0 then 14 else 200)
      true false (fun i => ⟨i, 0, 0, 255⟩) 0 0 (by norm_num) (by norm_num)).1 rfl
  · exact (flatTextureInit_red_remap 2 1 (fun i => if i = 0 then 14 else 200)
      true false (fun i => ⟨i, 0, 0, 255⟩) 1 0 (by norm_num) (by norm_num)).2.2
      200 rfl (by decide) (by simp) (by decide) (by decide)

end SoftwareRenderer

namespace TextureManager

/- ### TextureManager image-ID cache (TextureManager.cpp lines 33-47 and
573-610) -/

/-- Embedding of `TextureUtils::ImageIdGroup`: a contiguous ID range (start ID and
count). -/
structure ImageIdGroup where
  startID : ℕ
  count : ℕ
  deriving DecidableEq

/-- The image state of the texture manager: the `imageIDs` name-to-ID-group map
(an association list modelling the `std::unordered_map`) and the `images`
storage vector. The image payload type is abstract. -/
structure TMState (α : Type) where
  imageIDs : List (String × ImageIdGroup)
  images : List α

/-- Embedding of `TextureManager::isValidFilename`: non-null and non-empty. -/
def isValidFilename (filename : String) : Bool := filename ≠ ""

/-- Embedding of `TextureManager::makeTextureMappingName`: the filename, with the
palette ID appended when present. -/
def makeTextureMappingName (filename : String) (paletteID : Option ℕ) : String :=
  match paletteID with
  | some id => filename ++ toString id
  | none => filename

/-- Embedding of `TextureManager::tryGetImageIDs` (lines 573-610): reject invalid
filenames; on a cache hit return the stored ID group unchanged; on a miss
invoke the file loader (`TextureManager::tryLoadImages`, abstracted as the
`loader` parameter since it reads external files), append the loaded
images to storage, and record the new ID group under the mapping name.
Returns the ID group and the updated state, or `none` on failure (the C++
returns `false`). -/
def tryGetImageIDs {α : Type} (loader : String → Option ℕ → Option (List α))
    (st : TMState α) (filename : String) (paletteID : Option ℕ) :
    Option (ImageIdGroup × TMState α) :=
  if ¬isValidFilename filename then
    none
  else
    let mappingName := makeTextureMappingName filename paletteID
    match st.imageIDs.lookup mappingName with
    | some ids => some (ids, st)
    | none =>
      match loader filename paletteID with
      | some images =>
        let ids : ImageIdGroup := ⟨st.images.length, images.length⟩
        some (ids, ⟨(mappingName, ids) :: st.imageIDs, st.images ++ images⟩)
      | none => none

/-- Claim C10: `TextureManager` ID lookup is an idempotent cache: whenever
`tryGetImageIDs` succeeds, calling it again with the same filename and
optional palette ID succeeds, returns the identical `ImageIdGroup`, and
leaves the whole state — in particular the stored image collection —
unchanged (the file is not loaded or appended a second time). -/
theorem tryGetImageIDs_idempotent {α : Type}
    (loader : String → Option ℕ → Option (List α)) (st : TMState α)
    (filename : String) (paletteID : Option ℕ) (ids : ImageIdGroup)
    (st1 : TMState α)
    (hfirst : tryGetImageIDs loader st filename paletteID = some (ids, st1)) :
    tryGetImageIDs loader st1 filename paletteID = some (ids, st1) := by
  unfold tryGetImageIDs at hfirst ⊢
  by_cases hvalid : isValidFilename filename = true
  · simp only [hvalid, not_true_eq_false, if_false, Bool.false_eq_true,
      reduceIte] at hfirst ⊢
    cases hlook : st.imageIDs.lookup (makeTextureMappingName filename paletteID) with
    | some ids0 =>
      rw [hlook] at hfirst
      have hids : ids0 = ids ∧ st = st1 := by
        have := Option.some.inj hfirst
        exact ⟨congrArg Prod.fst this, congrArg Prod.snd this⟩
      rw [← hids.2, hlook, hids.1]
    | none =>
      rw [hlook] at hfirst
      cases hload : loader filename paletteID with
      | some images =>
        rw [hload] at hfirst
        have := Option.some.inj hfirst
        have hids : (⟨st.images.length, images.length⟩ : ImageIdGroup) = ids :=
          congrArg Prod.fst this
        have hst1 : (⟨(makeTextureMappingName filename paletteID,
            (⟨st.images.length, images.length⟩ : ImageIdGroup)) :: st.imageIDs,
            st.images ++ images⟩ : TMState α) = st1 :=
          congrArg Prod.snd this
        rw [← hst1]
        simp [List.lookup, hids]
      | none =>
        rw [hload] at hfirst
        exact absurd hfirst (by simp)
  · rw [if_pos hvalid] at hfirst
    exact absurd hfirst (by simp)

/-- Witness for C10: loading a one-image file once and then asking again
returns the same ID group and the same state. -/
theorem tryGetImageIDs_idempotent_witness :
    tryGetImageIDs (fun _ _ => some [0]) ⟨[("A", ⟨0, 1⟩)], [0]⟩ "A" none =
      some (⟨0, 1⟩, (⟨[("A", ⟨0, 1⟩)], [0]⟩ : TMState ℕ)) := by
  apply tryGetImageIDs_idempotent (fun _ _ => some [0]) ⟨[], []⟩ "A" none
  rfl

end TextureManager
